import Mathlib

/-!
Verification of the document-chunking and multi-pass LLM-aggregation pipeline of
`utils/question_answering.py` (QuestEgine repository), against its natural-language
specification. The tokenizer (`tiktoken`, encoding `cl100k_base`) is external to the
repository; it is modelled by an abstract `Encoding` (an encode/decode pair) whose only
assumed fact is that decoding the empty token list yields the empty string. Python
string builtins (`strip`, `split`) and the two regex operations used by the question
parser are modelled by executable functions restricted to ASCII text. Everything else
is translated directly from the source.
-/

namespace QuestEngine

/-- Token budget constant `Config.MAX_TOKENS` from `utils/config.py` line 11. -/
def MAX_TOKENS : Nat := 30000

/-- Loop body of `chunk_text` (`utils/question_answering.py` lines 32-39): the state is
`(chunks, current_chunk, current_token_count)`; a token that would push the count past
`max_tokens` flushes the accumulator into `chunks` and starts a new chunk holding that
token, otherwise the token is appended to the accumulator. -/
def chunkStep (max_tokens : Nat) (st : List (List Nat) × List Nat × Nat) (token : Nat) :
    List (List Nat) × List Nat × Nat :=
  match st with
  | (chunks, current_chunk, current_token_count) =>
    if current_token_count + 1 > max_tokens then
      (chunks ++ [current_chunk], [token], 1)
    else
      (chunks, current_chunk ++ [token], current_token_count + 1)

/-- Final flush of the `chunk_text` loop (lines 41-42): append the remaining accumulator
to the chunk list when it is non-empty (the `if current_chunk:` test). -/
def chunkFinalize (st : List (List Nat) × List Nat × Nat) : List (List Nat) :=
  match st with
  | (chunks, current_chunk, _) =>
    if current_chunk = [] then chunks else chunks ++ [current_chunk]

/-- Token-level core of `chunk_text` (lines 28-44): fold `chunkStep` over the encoded
token stream starting from `([], [], 0)`, then flush the final accumulator. Decoding
each chunk back to text is applied separately by `chunk_text` below. -/
def chunkTokens (tokens : List Nat) (max_tokens : Nat) : List (List Nat) :=
  chunkFinalize (tokens.foldl (chunkStep max_tokens) ([], [], 0))

/-- Recursive presentation of the `chunk_text` loop, convenient for induction:
`chunkLoop max_tokens ts cur cnt` lists the chunks that the remaining iterations of the
loop (on the remaining tokens `ts`, with accumulator `cur` of count `cnt`) will emit,
including the final flush. -/
def chunkLoop (max_tokens : Nat) : List Nat → List Nat → Nat → List (List Nat)
  | [], cur, _ => if cur = [] then [] else [cur]
  | t :: ts, cur, cnt =>
    if cnt + 1 > max_tokens then
      cur :: chunkLoop max_tokens ts [t] 1
    else
      chunkLoop max_tokens ts (cur ++ [t]) (cnt + 1)

/-- Model of the external tokenizer (`tiktoken`, encoding `cl100k_base`, obtained by
`tiktoken.get_encoding` on lines 20 and 25): an encode/decode pair on token streams.
The only fact assumed about the concrete tokenizer is that decoding an empty token list
gives the empty string. -/
structure Encoding where
  encode : String → List Nat
  decode : List Nat → String
  decode_nil : decode [] = ""

/-- Translation of `count_tokens` (lines 18-21): the length of the encoded token
stream. -/
def count_tokens (enc : Encoding) (text : String) : Nat :=
  (enc.encode text).length

/-- Translation of `chunk_text` (lines 23-44): encode the text, run the greedy
chunking loop, and decode each accumulated token run back to text. -/
def chunk_text (enc : Encoding) (text : String) (max_tokens : Nat) : List String :=
  (chunkTokens (enc.encode text) max_tokens).map enc.decode

/-- Parsed shape of the fallback HTTP response: the texts reachable at
`candidates[i].content.parts[0].text`. A JSON body from which that path cannot be read
is modelled by the raise case of `HttpOutcome`, because in the source any failure while
indexing into the JSON is caught by the same `except` clause (line 66). -/
structure HttpResponse where
  candidates : List String

/-- Outcome of the `requests.post` / `raise_for_status` / `response.json()` sequence of
`generate_answer_with_fallback` (lines 59-61): a parsed response, or an exception
(transport failure, non-2xx status, malformed body) carrying its message `str(e)`. -/
inductive HttpOutcome where
  | ok (r : HttpResponse)
  | raise (e : String)

/-- Translation of `generate_answer_with_fallback` (lines 46-67). Building the URL and
request body has no observable effect beyond the prompt, so the network is a function
from the prompt to an `HttpOutcome`. On a parsed response with at least one candidate
the first candidate text is returned (lines 63-64); with no candidate, the fixed
sentinel (line 65); a raised exception `e` becomes the string `"API Error: " + str(e)`
(lines 66-67). -/
def generate_answer_with_fallback (http : String → HttpOutcome) (prompt : String) :
    String :=
  match http prompt with
  | HttpOutcome.ok r =>
    match r.candidates with
    | [] => "Sorry, I couldn\x27t generate a response. Please try again."
    | t :: _ => t
  | HttpOutcome.raise e => "API Error: " ++ e

/-- Environment of one task invocation: the `model` argument of the task function
(`None` is `Option.none`; a live handle is its `generate_content` method, which returns
the response text or raises with message `str(e)`, the `Except.error` case), and the
behavior of the fallback HTTP endpoint. -/
structure Oracles where
  model : Option (String → Except String String)
  http : String → HttpOutcome

/-- Observable record of one Model Gateway call: a `model.generate_content` call on the
handle, or a `generate_answer_with_fallback` HTTP call, with the prompt it was given. -/
inductive GatewayCall where
  | handle (prompt : String)
  | fallback (prompt : String)
deriving DecidableEq

/-- Discriminator for call records: true exactly for calls routed through the HTTP
fallback function. -/
def isFallbackCall : GatewayCall → Bool
  | GatewayCall.fallback _ => true
  | GatewayCall.handle _ => false

/-- One call site of the shape `if model: ... model.generate_content(prompt) ... else:
... generate_answer_with_fallback(prompt)` (e.g. lines 90-94): returns the issued call
and its outcome. Only the handle can raise; the fallback path always returns a string. -/
def callGateway (o : Oracles) (prompt : String) :
    List GatewayCall × Except String String :=
  match o.model with
  | some m => ([GatewayCall.handle prompt], m prompt)
  | none =>
    ([GatewayCall.fallback prompt],
      Except.ok (generate_answer_with_fallback o.http prompt))

/-- Which kind of call a call site issues, given the presence of the handle. -/
def gatewayCallOf (o : Oracles) (prompt : String) : GatewayCall :=
  match o.model with
  | some _ => GatewayCall.handle prompt
  | none => GatewayCall.fallback prompt

/-- Map phase shared verbatim by the four tasks (e.g. lines 77-94): iterate over the
chunks in order, issue one gateway call per chunk, append each `response.text` to the
partial-results list. A raised exception aborts the loop and propagates (the raising
call itself was already issued; the collected partial results are lost). -/
def mapChunks (o : Oracles) (mkPrompt : String → String) :
    List String → List GatewayCall × Except String (List String)
  | [] => ([], Except.ok [])
  | c :: cs =>
    match callGateway o (mkPrompt c) with
    | (log, Except.error e) => (log, Except.error e)
    | (log, Except.ok t) =>
      match mapChunks o mkPrompt cs with
      | (log2, Except.error e) => (log ++ log2, Except.error e)
      | (log2, Except.ok ts) => (log ++ log2, Except.ok (t :: ts))

/-- Python f-string interpolation of the optional `filename` parameter: `None` prints
as the four-character string "None". -/
def pyStrOpt : Option String → String
  | none => "None"
  | some s => s

/-- Per-chunk prompt of `generate_answer` (lines 78-88), with the exact indentation of
the f-string in the source. -/
def answer_chunk_prompt (filename : Option String) (question chunk : String) : String :=
  "\n                Document Analysis Task:\n                File: " ++
  pyStrOpt filename ++
  "\n                Content Portion:\n                " ++ chunk ++
  "\n                \n                Question: " ++ question ++
  "\n                \n                Please provide a concise answer based on the document content.\n                If the answer isn\x27t in this portion, say so.\n                "

/-- Reduction prompt of `generate_answer` (lines 100-108). -/
def answer_summary_prompt (combined_response question : String) : String :=
  "\n            Combine these partial answers into one coherent response:\n            \n            " ++
  combined_response ++
  "\n            \n            Question: " ++ question ++
  "\n            \n            Provide a single, clear answer that combines the most relevant information.\n            "

/-- Single-pass prompt of `generate_answer` (lines 115-124). -/
def answer_full_prompt (filename : Option String) (question document_text : String) :
    String :=
  "\n            Document Analysis Task:\n            File: " ++ pyStrOpt filename ++
  "\n            Full Content:\n            " ++ document_text ++
  "\n            \n            Question: " ++ question ++
  "\n            \n            Please provide a concise answer based on the document content.\n            "

/-- Per-chunk prompt of `summarize_document` (lines 141-146). -/
def summarize_chunk_prompt (chunk : String) : String :=
  "\n                Please summarize this document portion:\n                " ++
  chunk ++
  "\n                \n                Focus on key points and main ideas.\n                "

/-- Reduction prompt of `summarize_document` (lines 158-163). -/
def summarize_combine_prompt (combined_summary : String) : String :=
  "\n            Combine these partial summaries into one coherent summary:\n            " ++
  combined_summary ++
  "\n            \n            Keep it concise (3-5 sentences) focusing on key points.\n            "

/-- Single-pass prompt of `summarize_document` (lines 170-175). -/
def summarize_full_prompt (document_text : String) : String :=
  "\n            Please summarize this document:\n            " ++ document_text ++
  "\n            \n            Keep it concise (3-5 sentences) focusing on key points.\n            "

/-- Per-chunk prompt of `extract_key_points` (lines 192-197). -/
def keypoints_chunk_prompt (chunk : String) : String :=
  "\n                Extract key points from this document portion:\n                " ++
  chunk ++
  "\n                \n                Return as a bulleted list of important ideas.\n                "

/-- Reduction prompt of `extract_key_points` (lines 209-214). -/
def keypoints_organize_prompt (combined_points : String) : String :=
  "\n            Combine these key points into one organized list:\n            " ++
  combined_points ++
  "\n            \n            Remove duplicates and group related points.\n            "

/-- Single-pass prompt of `extract_key_points` (lines 221-226). -/
def keypoints_full_prompt (document_text : String) : String :=
  "\n            Extract key points from this document:\n            " ++ document_text ++
  "\n            \n            Return as a bulleted list of important ideas.\n            "

/-- Per-chunk prompt of `generate_questions` (lines 243-252). -/
def questions_chunk_prompt (chunk : String) : String :=
  "\n                Based on the following document content, generate 3-5 relevant and insightful questions\n                that someone might want to ask about this information. Make the questions diverse,\n                covering different aspects of the content.\n                \n                Document Content:\n                " ++
  chunk ++
  "\n                \n                Return just the numbered questions without any additional text or explanations.\n                "

/-- Reduction prompt of `generate_questions` (lines 263-271); note the trailing space
after "final list of " present in the source. -/
def questions_dedup_prompt (combined_questions : String) : String :=
  "\n            Here are several sets of questions generated from different parts of a document:\n            \n            " ++
  combined_questions ++
  "\n            \n            Please review these questions, remove duplicates, and provide a final list of \n            10 unique and diverse questions that cover the main topics in the document.\n            Return just the numbered questions without any additional text.\n            "

/-- Single-pass prompt of `generate_questions` (lines 289-298). -/
def questions_full_prompt (document_text : String) : String :=
  "\n            Based on the following document content, generate 10 relevant and insightful questions\n            that someone might want to ask about this information. Make the questions diverse,\n            covering different aspects of the content.\n            \n            Document Content:\n            " ++
  document_text ++
  "\n            \n            Return just the numbered questions without any additional text or explanations.\n            "

/-- ASCII whitespace stripped by Python `str.strip()` and matched by the regex class
`\s` (the model is restricted to ASCII; the parsing claims only involve ASCII text). -/
def isPySpace (c : Char) : Bool :=
  c = ' ' || c = '\t' || c = '\n' || c = '\r' || c = '\x0b' || c = '\x0c'

/-- Python `str.strip()`: drop whitespace from both ends. -/
def pyStrip (s : String) : String :=
  String.mk (((s.data.dropWhile isPySpace).reverse.dropWhile isPySpace).reverse)

/-- Python regex class `\w` (ASCII restriction): letters, digits, underscore. -/
def isWordChar (c : Char) : Bool :=
  c.isAlphanum || c = '_'

/-- Python `re.search(r"\w", q)` viewed as a Boolean: some character of `q` is a word
character. Note that digits are word characters. -/
def hasWordChar (q : String) : Bool :=
  q.data.any isWordChar

/-- Python `re.sub(r"^\d+[\.\)]\s*", "", q)`: if `q` starts with one or more digits
followed by a period or closing parenthesis, remove that marker together with any
whitespace after it; otherwise return `q` unchanged. Backtracking cannot produce any
other match because a digit is never a period or closing parenthesis. -/
def stripEnumMarker (q : String) : String :=
  let cs := q.data
  let ds := cs.takeWhile Char.isDigit
  match ds, cs.drop ds.length with
  | _ :: _, c :: rest =>
    if c = '.' || c = ')' then String.mk (rest.dropWhile isPySpace) else q
  | _, _ => q

/-- Accumulator pass of Python `str.split` on a single newline character. -/
def splitNlAux : List Char → List Char → List String
  | [], acc => [String.mk acc.reverse]
  | c :: cs, acc =>
    if c = '\n' then String.mk acc.reverse :: splitNlAux cs []
    else splitNlAux cs (c :: acc)

/-- Python `s.split("\n")`: the maximal newline-free segments of `s`, keeping empty
segments, so the result always has one more element than `s` has newlines. -/
def pySplitNl (s : String) : List String :=
  splitNlAux s.data []

/-- Question parsing applied to a model output by `generate_questions`
(lines 276-280, 283-286, 302-307, 310-313): strip the text, split on newlines, strip
each line keeping the non-blank ones, keep the lines containing a word character (this
test runs before the marker is removed), and strip the leading enumeration marker of
each kept line. -/
def parse_questions (text : String) : List String :=
  let questions_list := pySplitNl (pyStrip text)
  let clean_questions := questions_list.filterMap (fun q =>
    let s := pyStrip q
    if s = "" then none else some s)
  clean_questions.filterMap (fun q =>
    if hasWordChar q then some (stripEnumMarker q) else none)

/-- Aggregation skeleton that all four task functions repeat verbatim in the source
(`generate_answer` lines 72-113, `summarize_document` lines 136-168,
`extract_key_points` lines 187-219, `generate_questions` lines 238-282): if the
document exceeds `Config.MAX_TOKENS`, run the map loop over `chunk_text(document)`
with the task's per-chunk prompt, join the partial results with the task's separator,
and issue one reduction call on the task's reduction prompt over the joined text;
otherwise issue one call on the task's full-document prompt. The result is the issued
call list and the raw outcome before the task's `except` clause. -/
def aggregateBody (o : Oracles) (enc : Encoding) (document_text : String)
    (mkChunkPrompt : String → String) (sep : String)
    (mkReducePrompt : String → String) (fullPrompt : String) :
    List GatewayCall × Except String String :=
  if count_tokens enc document_text > MAX_TOKENS then
    match mapChunks o mkChunkPrompt (chunk_text enc document_text MAX_TOKENS) with
    | (log, Except.error e) => (log, Except.error e)
    | (log, Except.ok results) =>
      match callGateway o (mkReducePrompt (String.intercalate sep results)) with
      | (log2, r) => (log ++ log2, r)
  else
    callGateway o fullPrompt

/-- Instrumented translation of `generate_answer` (lines 69-131): the ordered list of
Model Gateway calls issued, and the returned string. Partial answers are joined with a
blank line (line 97); the outer `try/except` (lines 71, 130-131) converts a raised
exception `e` into the string `"Error generating answer: " + str(e)`. -/
def generate_answer_run (o : Oracles) (enc : Encoding) (document_text question : String)
    (filename : Option String) : List GatewayCall × String :=
  match aggregateBody o enc document_text (answer_chunk_prompt filename question) "\n\n"
      (fun combined_response => answer_summary_prompt combined_response question)
      (answer_full_prompt filename question document_text) with
  | (log, Except.ok t) => (log, t)
  | (log, Except.error e) => (log, "Error generating answer: " ++ e)

/-- Result of `generate_answer` as seen by its caller. -/
def generate_answer (o : Oracles) (enc : Encoding) (document_text question : String)
    (filename : Option String) : String :=
  (generate_answer_run o enc document_text question filename).2

/-- Instrumented translation of `summarize_document` (lines 133-182); partial
summaries are joined with a blank line (line 155). -/
def summarize_document_run (o : Oracles) (enc : Encoding) (document_text : String) :
    List GatewayCall × String :=
  match aggregateBody o enc document_text summarize_chunk_prompt "\n\n"
      summarize_combine_prompt (summarize_full_prompt document_text) with
  | (log, Except.ok t) => (log, t)
  | (log, Except.error e) => (log, "Error generating summary: " ++ e)

/-- Result of `summarize_document` as seen by its caller. -/
def summarize_document (o : Oracles) (enc : Encoding) (document_text : String) :
    String :=
  (summarize_document_run o enc document_text).2

/-- Instrumented translation of `extract_key_points` (lines 184-233); partial point
lists are joined with a blank line (line 206). -/
def extract_key_points_run (o : Oracles) (enc : Encoding) (document_text : String) :
    List GatewayCall × String :=
  match aggregateBody o enc document_text keypoints_chunk_prompt "\n\n"
      keypoints_organize_prompt (keypoints_full_prompt document_text) with
  | (log, Except.ok t) => (log, t)
  | (log, Except.error e) => (log, "Error extracting key points: " ++ e)

/-- Result of `extract_key_points` as seen by its caller. -/
def extract_key_points (o : Oracles) (enc : Encoding) (document_text : String) :
    String :=
  (extract_key_points_run o enc document_text).2

/-- Instrumented translation of `generate_questions` (lines 235-315). The partial
results are joined with a single newline (line 261), unlike the other three tasks;
parsing is applied to the reduction or single-pass output inside the `try`, and a
raised exception `e` yields `["Error generating questions: " + str(e)]`
(lines 314-315). -/
def generate_questions_run (o : Oracles) (enc : Encoding) (document_text : String) :
    List GatewayCall × List String :=
  match aggregateBody o enc document_text questions_chunk_prompt "\n"
      questions_dedup_prompt (questions_full_prompt document_text) with
  | (log, Except.ok t) => (log, parse_questions t)
  | (log, Except.error e) => (log, ["Error generating questions: " ++ e])

/-- Result of `generate_questions` as seen by its caller. -/
def generate_questions (o : Oracles) (enc : Encoding) (document_text : String) :
    List String :=
  (generate_questions_run o enc document_text).2

/-- Concrete test encoding for witnesses: one token per character. -/
def charEncoding : Encoding where
  encode s := s.data.map Char.toNat
  decode l := String.mk (l.map Char.ofNat)
  decode_nil := rfl

/-- Concrete test encoding for witnesses of the multi-chunk cases: every text encodes
to `MAX_TOKENS + 1` tokens (forcing exactly two chunks), and every non-empty chunk
decodes to the one-character text "c". -/
def bigEncoding : Encoding where
  encode _ := List.replicate 30001 0
  decode l := if l.isEmpty then "" else "c"
  decode_nil := rfl

/-- Concrete transport that always fails, for witnesses. -/
def httpDown : String → HttpOutcome :=
  fun _ => HttpOutcome.raise "connection refused"

/-- Concrete transport answering every prompt with one candidate "hello". -/
def httpHello : String → HttpOutcome :=
  fun _ => HttpOutcome.ok (HttpResponse.mk ["hello"])

/-- Concrete transport answering every prompt with an empty candidate list. -/
def httpEmpty : String → HttpOutcome :=
  fun _ => HttpOutcome.ok (HttpResponse.mk [])

/-- Witness environment: a handle echoing each prompt behind a marker. -/
def oraclesEcho : Oracles where
  model := some (fun p => Except.ok ("R:" ++ p))
  http := httpDown

/-- Witness environment: a handle answering "r" to every prompt. -/
def oraclesConst : Oracles where
  model := some (fun _ => Except.ok "r")
  http := httpDown

/-- Witness environment: a handle that raises on every prompt. -/
def oraclesRaise : Oracles where
  model := some (fun _ => Except.error "boom")
  http := httpDown

/-- Witness environment: no handle, failing transport. -/
def oraclesNone : Oracles where
  model := none
  http := httpDown

lemma foldl_chunkStep_eq_chunkLoop (B : Nat) (ts : List Nat) :
    ∀ (chunks : List (List Nat)) (cur : List Nat) (cnt : Nat),
      chunkFinalize (ts.foldl (chunkStep B) (chunks, cur, cnt)) =
      chunks ++ chunkLoop B ts cur cnt := by
  induction ts with
  | nil =>
    intro chunks cur cnt
    by_cases h : cur = [] <;> simp [List.foldl, chunkFinalize, chunkLoop, h]
  | cons t ts ih =>
    intro chunks cur cnt
    simp only [List.foldl, chunkStep, chunkLoop]
    by_cases h : cnt + 1 > B
    · simp only [if_pos h]
      rw [ih]
      simp
    · simp only [if_neg h]
      rw [ih]

lemma chunkTokens_eq_chunkLoop (ts : List Nat) (B : Nat) :
    chunkTokens ts B = chunkLoop B ts [] 0 := by
  have h := foldl_chunkStep_eq_chunkLoop B ts [] [] 0
  simpa [chunkTokens] using h

lemma chunkLoop_flatten (B : Nat) (ts : List Nat) :
    ∀ (cur : List Nat) (cnt : Nat), (chunkLoop B ts cur cnt).flatten = cur ++ ts := by
  induction ts with
  | nil =>
    intro cur cnt
    by_cases h : cur = [] <;> simp [chunkLoop, h]
  | cons t ts ih =>
    intro cur cnt
    simp only [chunkLoop]
    by_cases h : cnt + 1 > B
    · simp [if_pos h, ih]
    · simp [if_neg h, ih]

lemma chunkLoop_length_le (B : Nat) (hB : 1 ≤ B) (ts : List Nat) :
    ∀ (cur : List Nat) (cnt : Nat), cnt = cur.length → cnt ≤ B →
      ∀ c ∈ chunkLoop B ts cur cnt, c.length ≤ B := by
  induction ts with
  | nil =>
    intro cur cnt hcnt hle c hc
    by_cases h : cur = []
    · simp [chunkLoop, h] at hc
    · simp [chunkLoop, h] at hc
      subst hc
      omega
  | cons t ts ih =>
    intro cur cnt hcnt hle c hc
    simp only [chunkLoop] at hc
    by_cases h : cnt + 1 > B
    · rw [if_pos h] at hc
      rcases List.mem_cons.mp hc with hc | hc
      · subst hc; omega
      · exact ih [t] 1 rfl hB c hc
    · rw [if_neg h] at hc
      refine ih (cur ++ [t]) (cnt + 1) ?_ ?_ c hc
      · simp [← hcnt]
      · omega

lemma chunkLoop_ne_nil (B : Nat) (hB : 1 ≤ B) (ts : List Nat) :
    ∀ (cur : List Nat) (cnt : Nat), cnt = cur.length →
      ∀ c ∈ chunkLoop B ts cur cnt, c ≠ [] := by
  induction ts with
  | nil =>
    intro cur cnt hcnt c hc
    by_cases h : cur = []
    · simp [chunkLoop, h] at hc
    · simp [chunkLoop, h] at hc
      subst hc
      exact h
  | cons t ts ih =>
    intro cur cnt hcnt c hc
    simp only [chunkLoop] at hc
    by_cases h : cnt + 1 > B
    · rw [if_pos h] at hc
      rcases List.mem_cons.mp hc with hc | hc
      · subst hc
        intro hnil
        rw [hnil] at hcnt
        simp at hcnt
        omega
      · exact ih [t] 1 rfl c hc
    · rw [if_neg h] at hc
      refine ih (cur ++ [t]) (cnt + 1) ?_ c hc
      simp [← hcnt]

lemma chunkLoop_length (B : Nat) (hB : 1 ≤ B) (ts : List Nat) :
    ∀ (cur : List Nat) (cnt : Nat), cnt = cur.length → 1 ≤ cnt → cnt ≤ B →
      (chunkLoop B ts cur cnt).length = (cnt + ts.length + B - 1) / B := by
  induction ts with
  | nil =>
    intro cur cnt hcnt h1 hle
    have hcur : cur ≠ [] := by
      intro hnil
      rw [hnil] at hcnt
      simp at hcnt
      omega
    have hdiv : (cnt + B - 1) / B = 1 := by
      apply Nat.div_eq_of_lt_le (k := 1) <;> omega
    simp [chunkLoop, hcur, hdiv]
  | cons t ts ih =>
    intro cur cnt hcnt h1 hle
    simp only [chunkLoop]
    by_cases h : cnt + 1 > B
    · rw [if_pos h]
      simp only [List.length_cons]
      rw [ih [t] 1 rfl (le_refl 1) hB]
      have e1 : 1 + ts.length + B - 1 = ts.length + B := by omega
      have e2 : cnt + (ts.length + 1) + B - 1 = ts.length + B + B := by omega
      have e3 : (ts.length + B + B) / B = (ts.length + B) / B + 1 := by
        rw [Nat.add_div_right _ (by omega : 0 < B)]
      rw [e1, e2, e3]
    · rw [if_neg h]
      rw [ih (cur ++ [t]) (cnt + 1) (by simp [← hcnt]) (by omega) (by omega)]
      congr 1
      simp
      omega

lemma chunkTokens_flatten (ts : List Nat) (B : Nat) :
    (chunkTokens ts B).flatten = ts := by
  rw [chunkTokens_eq_chunkLoop]
  simpa using chunkLoop_flatten B ts [] 0

lemma chunkTokens_length (ts : List Nat) (B : Nat) (hB : 1 ≤ B) :
    (chunkTokens ts B).length = (ts.length + B - 1) / B := by
  rw [chunkTokens_eq_chunkLoop]
  cases ts with
  | nil =>
    have h0 : ([] : List Nat).length + B - 1 = B - 1 := by simp
    rw [h0]
    have h1 : (B - 1) / B = 0 := Nat.div_eq_of_lt (by omega)
    simp [chunkLoop, h1]
  | cons t ts =>
    simp only [chunkLoop]
    rw [if_neg (by omega : ¬ 0 + 1 > B)]
    simp only [List.nil_append, Nat.zero_add]
    rw [chunkLoop_length B hB ts [t] 1 rfl (le_refl 1) hB]
    congr 1
    simp
    omega

lemma chunkTokens_mem_length_le (ts : List Nat) (B : Nat) (hB : 1 ≤ B) :
    ∀ c ∈ chunkTokens ts B, c.length ≤ B := by
  rw [chunkTokens_eq_chunkLoop]
  exact chunkLoop_length_le B hB ts [] 0 rfl (by omega)

lemma chunkTokens_mem_ne_nil (ts : List Nat) (B : Nat) (hB : 1 ≤ B) :
    ∀ c ∈ chunkTokens ts B, c ≠ [] := by
  rw [chunkTokens_eq_chunkLoop]
  exact chunkLoop_ne_nil B hB ts [] 0 rfl

lemma chunkTokens_nil (B : Nat) : chunkTokens [] B = [] := rfl

lemma chunkLoop_zero (ts : List Nat) (hts : ts ≠ []) :
    ∀ (cur : List Nat) (cnt : Nat), chunkLoop 0 ts cur cnt = cur :: ts.map (fun t => [t]) := by
  induction ts with
  | nil => exact absurd rfl hts
  | cons t ts ih =>
    intro cur cnt
    simp only [chunkLoop, List.map_cons]
    rw [if_pos (by omega : cnt + 1 > 0)]
    by_cases h : ts = []
    · subst h
      simp [chunkLoop]
    · rw [ih h [t] 1]

lemma chunkTokens_zero (ts : List Nat) (hts : ts ≠ []) :
    chunkTokens ts 0 = [] :: ts.map (fun t => [t]) := by
  rw [chunkTokens_eq_chunkLoop, chunkLoop_zero ts hts [] 0]

lemma chunk_text_length (enc : Encoding) (text : String) (B : Nat) (hB : 1 ≤ B) :
    (chunk_text enc text B).length = (count_tokens enc text + B - 1) / B := by
  rw [chunk_text, List.length_map, chunkTokens_length _ _ hB, count_tokens]

example : chunkTokens [1, 2, 3] 2 = [[1, 2], [3]] := by decide
example : chunkTokens [1, 2, 3, 4] 2 = [[1, 2], [3, 4]] := by decide
example : chunkTokens [1, 2] 0 = [[], [1], [2]] := by decide
example : chunkTokens [] 5 = [] := by decide

lemma mapChunks_total (o : Oracles) (f : String → String)
    (hgw : ∀ p, callGateway o p = ([gatewayCallOf o p], Except.ok (f p)))
    (mk : String → String) :
    ∀ cs : List String,
      mapChunks o mk cs =
        (cs.map (fun c => gatewayCallOf o (mk c)),
         Except.ok (cs.map (fun c => f (mk c)))) := by
  intro cs
  induction cs with
  | nil => rfl
  | cons c cs ih => simp [mapChunks, hgw, ih]

lemma mapChunks_fail (o : Oracles) (m : String → Except String String)
    (hm : o.model = some m) (mk : String → String) :
    ∀ (cs : List String) (i : Nat) (fj : Nat → String) (e : String),
      i < cs.length →
      (∀ j, j < i → m (mk (cs.getD j "")) = Except.ok (fj j)) →
      m (mk (cs.getD i "")) = Except.error e →
      mapChunks o mk cs =
        ((cs.take (i + 1)).map (fun c => GatewayCall.handle (mk c)),
         Except.error e) := by
  intro cs
  induction cs with
  | nil =>
    intro i fj e hi hok herr
    simp at hi
  | cons c cs ih =>
    intro i fj e hi hok herr
    cases i with
    | zero =>
      simp only [List.getD_cons_zero] at herr
      simp [mapChunks, callGateway, hm, herr]
    | succ i =>
      have h0 : m (mk c) = Except.ok (fj 0) := by
        have h := hok 0 (by omega)
        simpa using h
      have hok2 : ∀ j, j < i → m (mk (cs.getD j "")) = Except.ok (fj (j + 1)) := by
        intro j hj
        have h := hok (j + 1) (by omega)
        simpa using h
      have herr2 : m (mk (cs.getD i "")) = Except.error e := by
        simpa using herr
      have hi2 : i < cs.length := by
        simpa using hi
      simp [mapChunks, callGateway, hm, h0, ih i (fun j => fj (j + 1)) e hi2 hok2 herr2,
        List.take_succ_cons]

lemma aggregateBody_multi (o : Oracles) (enc : Encoding) (d : String)
    (mkC : String → String) (sep : String) (mkR : String → String) (fullP : String)
    (f : String → String)
    (hgw : ∀ p, callGateway o p = ([gatewayCallOf o p], Except.ok (f p)))
    (hbig : count_tokens enc d > MAX_TOKENS) :
    aggregateBody o enc d mkC sep mkR fullP =
      ((chunk_text enc d MAX_TOKENS).map (fun c => gatewayCallOf o (mkC c)) ++
        [gatewayCallOf o (mkR (String.intercalate sep
          ((chunk_text enc d MAX_TOKENS).map (fun c => f (mkC c)))))],
       Except.ok (f (mkR (String.intercalate sep
          ((chunk_text enc d MAX_TOKENS).map (fun c => f (mkC c))))))) := by
  simp [aggregateBody, hbig, mapChunks_total o f hgw mkC, hgw]

lemma aggregateBody_single (o : Oracles) (enc : Encoding) (d : String)
    (mkC : String → String) (sep : String) (mkR : String → String) (fullP : String)
    (f : String → String)
    (hgw : ∀ p, callGateway o p = ([gatewayCallOf o p], Except.ok (f p)))
    (hsmall : ¬ count_tokens enc d > MAX_TOKENS) :
    aggregateBody o enc d mkC sep mkR fullP =
      ([gatewayCallOf o fullP], Except.ok (f fullP)) := by
  simp [aggregateBody, hsmall, hgw]

lemma aggregateBody_raise (o : Oracles) (enc : Encoding) (d : String)
    (mkC : String → String) (sep : String) (mkR : String → String) (fullP : String)
    (m : String → Except String String) (g : String → String)
    (hm : o.model = some m) (hg : ∀ p, m p = Except.error (g p)) :
    ∃ p log, aggregateBody o enc d mkC sep mkR fullP = (log, Except.error (g p)) := by
  by_cases hbig : count_tokens enc d > MAX_TOKENS
  · cases hc : chunk_text enc d MAX_TOKENS with
    | nil =>
      refine ⟨mkR (String.intercalate sep []),
        [GatewayCall.handle (mkR (String.intercalate sep []))], ?_⟩
      simp [aggregateBody, hbig, hc, mapChunks, callGateway, hm, hg]
    | cons c cs =>
      refine ⟨mkC c, [GatewayCall.handle (mkC c)], ?_⟩
      simp [aggregateBody, hbig, hc, mapChunks, callGateway, hm, hg]
  · refine ⟨fullP, [GatewayCall.handle fullP], ?_⟩
    simp [aggregateBody, hbig, callGateway, hm, hg]

lemma aggregateBody_fail (o : Oracles) (enc : Encoding) (d : String)
    (mkC : String → String) (sep : String) (mkR : String → String) (fullP : String)
    (m : String → Except String String) (i : Nat) (fj : Nat → String) (e : String)
    (hm : o.model = some m)
    (hbig : count_tokens enc d > MAX_TOKENS)
    (hi : i < (chunk_text enc d MAX_TOKENS).length)
    (hok : ∀ j, j < i →
      m (mkC ((chunk_text enc d MAX_TOKENS).getD j "")) = Except.ok (fj j))
    (herr : m (mkC ((chunk_text enc d MAX_TOKENS).getD i "")) = Except.error e) :
    aggregateBody o enc d mkC sep mkR fullP =
      (((chunk_text enc d MAX_TOKENS).take (i + 1)).map
        (fun c => GatewayCall.handle (mkC c)),
       Except.error e) := by
  simp [aggregateBody, hbig,
    mapChunks_fail o m hm mkC (chunk_text enc d MAX_TOKENS) i fj e hi hok herr]

lemma answer_summary_prompt_contains (s q : String) :
    ∃ pre post, answer_summary_prompt s q = pre ++ s ++ post :=
  ⟨"\n            Combine these partial answers into one coherent response:\n            \n            ",
   "\n            \n            Question: " ++ q ++
     "\n            \n            Provide a single, clear answer that combines the most relevant information.\n            ",
   by simp [answer_summary_prompt, String.append_assoc]⟩

lemma summarize_combine_prompt_contains (s : String) :
    ∃ pre post, summarize_combine_prompt s = pre ++ s ++ post :=
  ⟨"\n            Combine these partial summaries into one coherent summary:\n            ",
   "\n            \n            Keep it concise (3-5 sentences) focusing on key points.\n            ",
   by simp [summarize_combine_prompt, String.append_assoc]⟩

lemma keypoints_organize_prompt_contains (s : String) :
    ∃ pre post, keypoints_organize_prompt s = pre ++ s ++ post :=
  ⟨"\n            Combine these key points into one organized list:\n            ",
   "\n            \n            Remove duplicates and group related points.\n            ",
   by simp [keypoints_organize_prompt, String.append_assoc]⟩

lemma questions_dedup_prompt_contains (s : String) :
    ∃ pre post, questions_dedup_prompt s = pre ++ s ++ post :=
  ⟨"\n            Here are several sets of questions generated from different parts of a document:\n            \n            ",
   "\n            \n            Please review these questions, remove duplicates, and provide a final list of \n            10 unique and diverse questions that cover the main topics in the document.\n            Return just the numbered questions without any additional text.\n            ",
   by simp [questions_dedup_prompt, String.append_assoc]⟩

lemma getD_map_of_lt (l : List String) (F : String → String) :
    ∀ i : Nat, i < l.length →
      (l.map F).getD i "" = F (l.getD i "") := by
  induction l with
  | nil =>
    intro i hi
    simp at hi
  | cons a l ih =>
    intro i hi
    cases i with
    | zero => simp
    | succ i =>
      simp only [List.map_cons, List.getD_cons_succ]
      exact ih i (by simpa using hi)

lemma eq_pair_of_length_two (l : List String) (a : String) (h2 : l.length = 2)
    (ha : ∀ x ∈ l, x = a) : l = [a, a] := by
  cases l with
  | nil => simp at h2
  | cons x l2 =>
    cases l2 with
    | nil => simp at h2
    | cons y l3 =>
      cases l3 with
      | nil => rw [ha x (by simp), ha y (by simp)]
      | cons z l4 => simp at h2

lemma bigEncoding_count (d : String) : count_tokens bigEncoding d = 30001 := by
  show (bigEncoding.encode d).length = 30001
  rw [show bigEncoding.encode d = List.replicate 30001 0 from rfl, List.length_replicate]

lemma bigEncoding_chunk_text (d : String) :
    chunk_text bigEncoding d MAX_TOKENS = ["c", "c"] := by
  have hB : 1 ≤ MAX_TOKENS := by norm_num [MAX_TOKENS]
  apply eq_pair_of_length_two
  · rw [chunk_text_length bigEncoding d MAX_TOKENS hB, bigEncoding_count]
    norm_num [MAX_TOKENS]
  · intro x hx
    rw [chunk_text] at hx
    rcases List.mem_map.mp hx with ⟨c, hc, rfl⟩
    have hne : c ≠ [] :=
      chunkTokens_mem_ne_nil (bigEncoding.encode d) MAX_TOKENS hB c hc
    cases c with
    | nil => exact absurd rfl hne
    | cons t ts => rfl

lemma generate_answer_run_log (o : Oracles) (enc : Encoding) (d q : String)
    (fn : Option String) :
    (generate_answer_run o enc d q fn).1 =
    (aggregateBody o enc d (answer_chunk_prompt fn q) "\n\n"
      (fun combined_response => answer_summary_prompt combined_response q)
      (answer_full_prompt fn q d)).1 := by
  rcases hb : aggregateBody o enc d (answer_chunk_prompt fn q) "\n\n"
      (fun combined_response => answer_summary_prompt combined_response q)
      (answer_full_prompt fn q d) with ⟨log, r⟩
  cases r <;> simp [generate_answer_run, hb]

lemma summarize_document_run_log (o : Oracles) (enc : Encoding) (d : String) :
    (summarize_document_run o enc d).1 =
    (aggregateBody o enc d summarize_chunk_prompt "\n\n"
      summarize_combine_prompt (summarize_full_prompt d)).1 := by
  rcases hb : aggregateBody o enc d summarize_chunk_prompt "\n\n"
      summarize_combine_prompt (summarize_full_prompt d) with ⟨log, r⟩
  cases r <;> simp [summarize_document_run, hb]

lemma extract_key_points_run_log (o : Oracles) (enc : Encoding) (d : String) :
    (extract_key_points_run o enc d).1 =
    (aggregateBody o enc d keypoints_chunk_prompt "\n\n"
      keypoints_organize_prompt (keypoints_full_prompt d)).1 := by
  rcases hb : aggregateBody o enc d keypoints_chunk_prompt "\n\n"
      keypoints_organize_prompt (keypoints_full_prompt d) with ⟨log, r⟩
  cases r <;> simp [extract_key_points_run, hb]

lemma generate_questions_run_log (o : Oracles) (enc : Encoding) (d : String) :
    (generate_questions_run o enc d).1 =
    (aggregateBody o enc d questions_chunk_prompt "\n"
      questions_dedup_prompt (questions_full_prompt d)).1 := by
  rcases hb : aggregateBody o enc d questions_chunk_prompt "\n"
      questions_dedup_prompt (questions_full_prompt d) with ⟨log, r⟩
  cases r <;> simp [generate_questions_run, hb]

lemma filterMap_strip_eq (l : List String) :
    l.filterMap (fun q => let s := pyStrip q; if s = "" then none else some s) =
    (l.map pyStrip).filter (fun s => s ≠ "") := by
  induction l with
  | nil => rfl
  | cons a l ih =>
    simp only [List.filterMap_cons, List.map_cons, List.filter_cons]
    by_cases h : pyStrip a = "" <;> simp [h, ih]

lemma filterMap_word_eq (l : List String) :
    l.filterMap (fun q => if hasWordChar q then some (stripEnumMarker q) else none) =
    (l.filter (fun q => hasWordChar q)).map stripEnumMarker := by
  induction l with
  | nil => rfl
  | cons a l ih =>
    by_cases h : hasWordChar a <;>
      simp [List.filterMap_cons, List.filter_cons, h, ih]

/-- C1: for every input text and positive budget B, the chunking is lossless at the
token level (the concatenation of the chunks underlying token streams is exactly the
encoded token stream of the text), the number of chunks equals the ceiling of
token_count / B (written (token_count + B - 1) / B in natural division), every chunk
holds at most B tokens, no chunk is empty, and an empty token stream yields the empty
chunk list. -/
theorem claim_C1 (enc : Encoding) (text : String) (B : Nat) (hB : 1 ≤ B) :
    (chunkTokens (enc.encode text) B).flatten = enc.encode text ∧
    (chunk_text enc text B).length = (count_tokens enc text + B - 1) / B ∧
    (∀ c ∈ chunkTokens (enc.encode text) B, c.length ≤ B) ∧
    (∀ c ∈ chunkTokens (enc.encode text) B, c ≠ []) ∧
    (enc.encode text = [] → chunk_text enc text B = []) := by
  refine ⟨chunkTokens_flatten _ _, chunk_text_length enc text B hB,
    chunkTokens_mem_length_le _ _ hB, chunkTokens_mem_ne_nil _ _ hB, ?_⟩
  intro h
  rw [chunk_text, h]
  rfl

/-- Witness for C1: the character encoding, the text "abc", budget 2. -/
theorem claim_C1_witness :
    (1 ≤ 2) ∧
    ((chunkTokens (charEncoding.encode "abc") 2).flatten = charEncoding.encode "abc" ∧
     (chunk_text charEncoding "abc" 2).length =
       (count_tokens charEncoding "abc" + 2 - 1) / 2 ∧
     (∀ c ∈ chunkTokens (charEncoding.encode "abc") 2, c.length ≤ 2) ∧
     (∀ c ∈ chunkTokens (charEncoding.encode "abc") 2, c ≠ []) ∧
     (charEncoding.encode "abc" = [] → chunk_text charEncoding "abc" 2 = [])) :=
  ⟨by decide, claim_C1 charEncoding "abc" 2 (by decide)⟩

/-- C10 counterexample: with budget 0 on the two-token stream of "ab" the code yields
three chunks, the empty chunk followed by one single-token chunk per token; the last
two tokens do not share one chunk, so the "except the last token pair" exception in
the claim does not hold. -/
theorem claim_C10_counterexample :
    chunkTokens [97, 98] 0 = [[], [97], [98]] ∧
    chunkTokens [97, 98] 0 ≠ [[], [97, 98]] ∧
    chunk_text charEncoding "ab" 0 = ["", "a", "b"] := by
  refine ⟨by decide, by decide, by decide⟩

/-- C10 (amended): outside the positive-budget precondition, for every text whose
token stream is non-empty, chunk_text(text, 0) returns the decode of the empty
initial token accumulator (the empty string) as its first chunk, followed by exactly
one single-token chunk per token, the last token included; in particular an empty
chunk occurs, so the guarantee that no chunk is empty holds only for
max_tokens at least 1. -/
theorem claim_C10 (enc : Encoding) (text : String) (h : enc.encode text ≠ []) :
    chunk_text enc text 0 = "" :: (enc.encode text).map (fun t => enc.decode [t]) ∧
    "" ∈ chunk_text enc text 0 := by
  have h1 : chunk_text enc text 0 =
      "" :: (enc.encode text).map (fun t => enc.decode [t]) := by
    rw [chunk_text, chunkTokens_zero (enc.encode text) h, List.map_cons,
      enc.decode_nil, List.map_map]
    rfl
  exact ⟨h1, by rw [h1]; exact List.mem_cons_self _ _⟩

/-- Witness for C10: the character encoding on the text "ab". -/
theorem claim_C10_witness :
    charEncoding.encode "ab" ≠ [] ∧
    (chunk_text charEncoding "ab" 0 =
       "" :: (charEncoding.encode "ab").map (fun t => charEncoding.decode [t]) ∧
     "" ∈ chunk_text charEncoding "ab" 0) :=
  ⟨by decide, claim_C10 charEncoding "ab" (by decide)⟩

/-- C4 counterexample: the parser output on the spec example keeps a third element,
the empty string produced from the line "3. " (its digit is a word character, so the
line passes the word-character filter before the marker is stripped), so the parsed
result is not the claimed two-element list. -/
theorem claim_C4_counterexample :
    parse_questions "1. What is X?\n2) How does Y work?\n\n3. " ≠
      ["What is X?", "How does Y work?"] := by
  decide

/-- C4 (amended): the generate_questions parser splits the output into lines, strips
each line, drops blank lines, keeps a line exactly when it contains a word character
where this test is applied before the enumeration marker is stripped (so digits make
a marker-only line pass), then strips a leading marker of digits followed by a period
or closing parenthesis and optional whitespace, preserving order; in particular the
example output parses to ["What is X?", "How does Y work?", ""]. -/
theorem claim_C4 :
    (∀ t : String, parse_questions t =
      ((((pySplitNl (pyStrip t)).map pyStrip).filter (fun s => s ≠ "")).filter
        (fun q => hasWordChar q)).map stripEnumMarker) ∧
    parse_questions "1. What is X?\n2) How does Y work?\n\n3. " =
      ["What is X?", "How does Y work?", ""] := by
  constructor
  · intro t
    simp only [parse_questions]
    rw [filterMap_strip_eq, filterMap_word_eq]
  · decide

/-- C6: generate_answer_with_fallback is a total function of the transport outcome;
on a response with at least one candidate it returns the first candidate text, on a
response with no candidates it returns the fixed sentinel string, and on a raised
transport/HTTP/parsing exception it returns the error-description string
"API Error: " followed by the exception message, never propagating the failure. -/
theorem claim_C6 (http : String → HttpOutcome) (prompt : String) :
    (∀ r t rest, http prompt = HttpOutcome.ok r → r.candidates = t :: rest →
      generate_answer_with_fallback http prompt = t) ∧
    (∀ r, http prompt = HttpOutcome.ok r → r.candidates = [] →
      generate_answer_with_fallback http prompt =
        "Sorry, I couldn\x27t generate a response. Please try again.") ∧
    (∀ e, http prompt = HttpOutcome.raise e →
      generate_answer_with_fallback http prompt = "API Error: " ++ e) := by
  refine ⟨?_, ?_, ?_⟩
  · intro r t rest hr hc
    simp [generate_answer_with_fallback, hr, hc]
  · intro r hr hc
    simp [generate_answer_with_fallback, hr, hc]
  · intro e he
    simp [generate_answer_with_fallback, he]

/-- Witness for C6: the three transport outcomes at concrete transports. -/
theorem claim_C6_witness :
    (httpHello "p" = HttpOutcome.ok (HttpResponse.mk ["hello"]) ∧
      generate_answer_with_fallback httpHello "p" = "hello") ∧
    (httpEmpty "p" = HttpOutcome.ok (HttpResponse.mk []) ∧
      generate_answer_with_fallback httpEmpty "p" =
        "Sorry, I couldn\x27t generate a response. Please try again.") ∧
    (httpDown "p" = HttpOutcome.raise "connection refused" ∧
      generate_answer_with_fallback httpDown "p" =
        "API Error: connection refused") :=
  ⟨⟨rfl, (claim_C6 httpHello "p").1 (HttpResponse.mk ["hello"]) "hello" [] rfl rfl⟩,
   ⟨rfl, (claim_C6 httpEmpty "p").2.1 (HttpResponse.mk []) rfl rfl⟩,
   ⟨rfl, (claim_C6 httpDown "p").2.2 "connection refused" rfl⟩⟩

/-- C3: for every task, when the document is within the token budget, exactly one
Model Gateway call is issued for the invocation, on the task's full-document prompt,
and its raw output is the final result (parsed by the question parser for
generate_questions); no reduction call occurs. The hypothesis states that every
issued gateway call returns normally with output f(prompt): with no handle this is
always the case, and with a handle it says the handle does not raise. -/
theorem claim_C3 (o : Oracles) (enc : Encoding) (d q : String) (fn : Option String)
    (f : String → String)
    (hgw : ∀ p, callGateway o p = ([gatewayCallOf o p], Except.ok (f p)))
    (hsmall : count_tokens enc d ≤ MAX_TOKENS) :
    generate_answer_run o enc d q fn =
      ([gatewayCallOf o (answer_full_prompt fn q d)],
       f (answer_full_prompt fn q d)) ∧
    summarize_document_run o enc d =
      ([gatewayCallOf o (summarize_full_prompt d)],
       f (summarize_full_prompt d)) ∧
    extract_key_points_run o enc d =
      ([gatewayCallOf o (keypoints_full_prompt d)],
       f (keypoints_full_prompt d)) ∧
    generate_questions_run o enc d =
      ([gatewayCallOf o (questions_full_prompt d)],
       parse_questions (f (questions_full_prompt d))) := by
  have hs : ¬ count_tokens enc d > MAX_TOKENS := by omega
  refine ⟨?_, ?_, ?_, ?_⟩
  · have hb := aggregateBody_single o enc d (answer_chunk_prompt fn q) "\n\n"
      (fun combined_response => answer_summary_prompt combined_response q)
      (answer_full_prompt fn q d) f hgw hs
    simp [generate_answer_run, hb]
  · have hb := aggregateBody_single o enc d summarize_chunk_prompt "\n\n"
      summarize_combine_prompt (summarize_full_prompt d) f hgw hs
    simp [summarize_document_run, hb]
  · have hb := aggregateBody_single o enc d keypoints_chunk_prompt "\n\n"
      keypoints_organize_prompt (keypoints_full_prompt d) f hgw hs
    simp [extract_key_points_run, hb]
  · have hb := aggregateBody_single o enc d questions_chunk_prompt "\n"
      questions_dedup_prompt (questions_full_prompt d) f hgw hs
    simp [generate_questions_run, hb]

/-- Witness for C3: an echoing handle on the three-token document "doc". -/
theorem claim_C3_witness :
    count_tokens charEncoding "doc" ≤ MAX_TOKENS ∧
    (generate_answer_run oraclesEcho charEncoding "doc" "q" none =
       ([GatewayCall.handle (answer_full_prompt none "q" "doc")],
        "R:" ++ answer_full_prompt none "q" "doc") ∧
     summarize_document_run oraclesEcho charEncoding "doc" =
       ([GatewayCall.handle (summarize_full_prompt "doc")],
        "R:" ++ summarize_full_prompt "doc") ∧
     extract_key_points_run oraclesEcho charEncoding "doc" =
       ([GatewayCall.handle (keypoints_full_prompt "doc")],
        "R:" ++ keypoints_full_prompt "doc") ∧
     generate_questions_run oraclesEcho charEncoding "doc" =
       ([GatewayCall.handle (questions_full_prompt "doc")],
        parse_questions ("R:" ++ questions_full_prompt "doc"))) :=
  ⟨by decide, claim_C3 oraclesEcho charEncoding "doc" "q" none
    (fun p => "R:" ++ p) (fun p => rfl) (by decide)⟩

set_option maxRecDepth 40000 in
/-- C2 counterexample: a multi-chunk generate_questions invocation with a handle that
answers "r" to every prompt. The two partial results are joined with a single newline
(the reduction prompt is built over "r" ++ "\n" ++ "r"), and the reduction prompt does
not contain the blank-line concatenation of the partial results, refuting the
blank-line-separator part of the claim for the generate_questions task. -/
theorem claim_C2_counterexample :
    (generate_questions_run oraclesConst bigEncoding "d").1 =
      [GatewayCall.handle (questions_chunk_prompt "c"),
       GatewayCall.handle (questions_chunk_prompt "c"),
       GatewayCall.handle (questions_dedup_prompt "r\nr")] ∧
    ¬ ∃ pre post, questions_dedup_prompt "r\nr" =
        pre ++ String.intercalate "\n\n" ["r", "r"] ++ post := by
  constructor
  · have hbig : count_tokens bigEncoding "d" > MAX_TOKENS := by
      rw [bigEncoding_count]
      norm_num [MAX_TOKENS]
    have hb := aggregateBody_multi oraclesConst bigEncoding "d" questions_chunk_prompt
      "\n" questions_dedup_prompt (questions_full_prompt "d")
      (fun p => "r") (fun p => rfl) hbig
    rw [bigEncoding_chunk_text] at hb
    have hj : String.intercalate "\n" ["r", "r"] = "r\nr" := by decide
    rw [generate_questions_run_log, hb]
    simp [gatewayCallOf, oraclesConst, hj]
  · rintro ⟨pre, post, hEq⟩
    have hdata := congrArg String.data hEq
    rw [String.data_append, String.data_append] at hdata
    have hinf : List.IsInfix (String.intercalate "\n\n" ["r", "r"]).data
        (questions_dedup_prompt "r\nr").data :=
      ⟨pre.data, post.data, hdata.symm⟩
    exact absurd hinf (by decide)

/-- C2 (amended): in the multi-chunk case every task issues exactly N per-chunk Model
Gateway calls in original chunk order followed by exactly one reduction call, and the
reduction prompt contains the partial results concatenated in chunk order — with a
blank-line separator for generate_answer, summarize_document and extract_key_points,
and a single-newline separator for generate_questions. The hypothesis states that
every issued gateway call returns normally with output f(prompt). -/
theorem claim_C2 (o : Oracles) (enc : Encoding) (d q : String) (fn : Option String)
    (f : String → String)
    (hgw : ∀ p, callGateway o p = ([gatewayCallOf o p], Except.ok (f p)))
    (hbig : count_tokens enc d > MAX_TOKENS) :
    (generate_answer_run o enc d q fn =
       ((chunk_text enc d MAX_TOKENS).map
           (fun c => gatewayCallOf o (answer_chunk_prompt fn q c)) ++
         [gatewayCallOf o (answer_summary_prompt
            (String.intercalate "\n\n" ((chunk_text enc d MAX_TOKENS).map
              (fun c => f (answer_chunk_prompt fn q c)))) q)],
        f (answer_summary_prompt
            (String.intercalate "\n\n" ((chunk_text enc d MAX_TOKENS).map
              (fun c => f (answer_chunk_prompt fn q c)))) q)) ∧
     ∃ pre post, answer_summary_prompt
         (String.intercalate "\n\n" ((chunk_text enc d MAX_TOKENS).map
           (fun c => f (answer_chunk_prompt fn q c)))) q =
       pre ++ String.intercalate "\n\n" ((chunk_text enc d MAX_TOKENS).map
         (fun c => f (answer_chunk_prompt fn q c))) ++ post) ∧
    (summarize_document_run o enc d =
       ((chunk_text enc d MAX_TOKENS).map
           (fun c => gatewayCallOf o (summarize_chunk_prompt c)) ++
         [gatewayCallOf o (summarize_combine_prompt
            (String.intercalate "\n\n" ((chunk_text enc d MAX_TOKENS).map
              (fun c => f (summarize_chunk_prompt c)))))],
        f (summarize_combine_prompt
            (String.intercalate "\n\n" ((chunk_text enc d MAX_TOKENS).map
              (fun c => f (summarize_chunk_prompt c)))))) ∧
     ∃ pre post, summarize_combine_prompt
         (String.intercalate "\n\n" ((chunk_text enc d MAX_TOKENS).map
           (fun c => f (summarize_chunk_prompt c)))) =
       pre ++ String.intercalate "\n\n" ((chunk_text enc d MAX_TOKENS).map
         (fun c => f (summarize_chunk_prompt c))) ++ post) ∧
    (extract_key_points_run o enc d =
       ((chunk_text enc d MAX_TOKENS).map
           (fun c => gatewayCallOf o (keypoints_chunk_prompt c)) ++
         [gatewayCallOf o (keypoints_organize_prompt
            (String.intercalate "\n\n" ((chunk_text enc d MAX_TOKENS).map
              (fun c => f (keypoints_chunk_prompt c)))))],
        f (keypoints_organize_prompt
            (String.intercalate "\n\n" ((chunk_text enc d MAX_TOKENS).map
              (fun c => f (keypoints_chunk_prompt c)))))) ∧
     ∃ pre post, keypoints_organize_prompt
         (String.intercalate "\n\n" ((chunk_text enc d MAX_TOKENS).map
           (fun c => f (keypoints_chunk_prompt c)))) =
       pre ++ String.intercalate "\n\n" ((chunk_text enc d MAX_TOKENS).map
         (fun c => f (keypoints_chunk_prompt c))) ++ post) ∧
    (generate_questions_run o enc d =
       ((chunk_text enc d MAX_TOKENS).map
           (fun c => gatewayCallOf o (questions_chunk_prompt c)) ++
         [gatewayCallOf o (questions_dedup_prompt
            (String.intercalate "\n" ((chunk_text enc d MAX_TOKENS).map
              (fun c => f (questions_chunk_prompt c)))))],
        parse_questions (f (questions_dedup_prompt
            (String.intercalate "\n" ((chunk_text enc d MAX_TOKENS).map
              (fun c => f (questions_chunk_prompt c))))))) ∧
     ∃ pre post, questions_dedup_prompt
         (String.intercalate "\n" ((chunk_text enc d MAX_TOKENS).map
           (fun c => f (questions_chunk_prompt c)))) =
       pre ++ String.intercalate "\n" ((chunk_text enc d MAX_TOKENS).map
         (fun c => f (questions_chunk_prompt c))) ++ post) := by
  refine ⟨⟨?_, answer_summary_prompt_contains _ _⟩,
    ⟨?_, summarize_combine_prompt_contains _⟩,
    ⟨?_, keypoints_organize_prompt_contains _⟩,
    ⟨?_, questions_dedup_prompt_contains _⟩⟩
  · have hb := aggregateBody_multi o enc d (answer_chunk_prompt fn q) "\n\n"
      (fun combined_response => answer_summary_prompt combined_response q)
      (answer_full_prompt fn q d) f hgw hbig
    simp [generate_answer_run, hb]
  · have hb := aggregateBody_multi o enc d summarize_chunk_prompt "\n\n"
      summarize_combine_prompt (summarize_full_prompt d) f hgw hbig
    simp [summarize_document_run, hb]
  · have hb := aggregateBody_multi o enc d keypoints_chunk_prompt "\n\n"
      keypoints_organize_prompt (keypoints_full_prompt d) f hgw hbig
    simp [extract_key_points_run, hb]
  · have hb := aggregateBody_multi o enc d questions_chunk_prompt "\n"
      questions_dedup_prompt (questions_full_prompt d) f hgw hbig
    simp [generate_questions_run, hb]

/-- Witness for C2: a two-chunk document under the replicating encoding, with a
handle answering "r" to every prompt; shown for the generate_answer and
generate_questions tasks. -/
theorem claim_C2_witness :
    count_tokens bigEncoding "d" > MAX_TOKENS ∧
    (generate_answer_run oraclesConst bigEncoding "d" "q" none =
       ((chunk_text bigEncoding "d" MAX_TOKENS).map
           (fun c => GatewayCall.handle (answer_chunk_prompt none "q" c)) ++
         [GatewayCall.handle (answer_summary_prompt
            (String.intercalate "\n\n" ((chunk_text bigEncoding "d" MAX_TOKENS).map
              (fun c => "r"))) "q")],
        answer_summary_prompt
          (String.intercalate "\n\n" ((chunk_text bigEncoding "d" MAX_TOKENS).map
            (fun c => "r"))) "q" |>
          (fun p => "r")) ∧
     ∃ pre post, answer_summary_prompt
         (String.intercalate "\n\n" ((chunk_text bigEncoding "d" MAX_TOKENS).map
           (fun c => "r"))) "q" =
       pre ++ String.intercalate "\n\n" ((chunk_text bigEncoding "d" MAX_TOKENS).map
         (fun c => "r")) ++ post) ∧
    (generate_questions_run oraclesConst bigEncoding "d" =
       ((chunk_text bigEncoding "d" MAX_TOKENS).map
           (fun c => GatewayCall.handle (questions_chunk_prompt c)) ++
         [GatewayCall.handle (questions_dedup_prompt
            (String.intercalate "\n" ((chunk_text bigEncoding "d" MAX_TOKENS).map
              (fun c => "r"))))],
        parse_questions "r") ∧
     ∃ pre post, questions_dedup_prompt
         (String.intercalate "\n" ((chunk_text bigEncoding "d" MAX_TOKENS).map
           (fun c => "r"))) =
       pre ++ String.intercalate "\n" ((chunk_text bigEncoding "d" MAX_TOKENS).map
         (fun c => "r")) ++ post) := by
  have hbig : count_tokens bigEncoding "d" > MAX_TOKENS := by
    rw [bigEncoding_count]
    norm_num [MAX_TOKENS]
  have h := claim_C2 oraclesConst bigEncoding "d" "q" none (fun p => "r")
    (fun p => rfl) hbig
  exact ⟨hbig, h.1, h.2.2.2⟩

/-- C7: when the model handle argument is None, every generation call issued by any
of the four tasks — per-chunk, reduction or single-pass — is a call to the HTTP
fallback function generate_answer_with_fallback; the absent handle is never
invoked. -/
theorem claim_C7 (o : Oracles) (enc : Encoding) (d q : String) (fn : Option String)
    (h : o.model = none) :
    (generate_answer_run o enc d q fn).1.all isFallbackCall = true ∧
    (summarize_document_run o enc d).1.all isFallbackCall = true ∧
    (extract_key_points_run o enc d).1.all isFallbackCall = true ∧
    (generate_questions_run o enc d).1.all isFallbackCall = true := by
  have hgw : ∀ p, callGateway o p =
      ([gatewayCallOf o p], Except.ok (generate_answer_with_fallback o.http p)) := by
    intro p
    simp [callGateway, gatewayCallOf, h]
  have hfb : ∀ p, gatewayCallOf o p = GatewayCall.fallback p := by
    intro p
    simp [gatewayCallOf, h]
  have key : ∀ (mkC : String → String) (sep : String) (mkR : String → String)
      (fullP : String),
      (aggregateBody o enc d mkC sep mkR fullP).1.all isFallbackCall = true := by
    intro mkC sep mkR fullP
    by_cases hbig : count_tokens enc d > MAX_TOKENS
    · rw [aggregateBody_multi o enc d mkC sep mkR fullP
        (generate_answer_with_fallback o.http) hgw hbig]
      simp [hfb, isFallbackCall, List.all_eq_true, List.mem_map]
    · rw [aggregateBody_single o enc d mkC sep mkR fullP
        (generate_answer_with_fallback o.http) hgw hbig]
      simp [hfb, isFallbackCall]
  rw [generate_answer_run_log, summarize_document_run_log, extract_key_points_run_log,
    generate_questions_run_log]
  exact ⟨key _ _ _ _, key _ _ _ _, key _ _ _ _, key _ _ _ _⟩

/-- Witness for C7: the environment with no handle on the document "doc". -/
theorem claim_C7_witness :
    oraclesNone.model = none ∧
    ((generate_answer_run oraclesNone charEncoding "doc" "q" none).1.all
       isFallbackCall = true ∧
     (summarize_document_run oraclesNone charEncoding "doc").1.all
       isFallbackCall = true ∧
     (extract_key_points_run oraclesNone charEncoding "doc").1.all
       isFallbackCall = true ∧
     (generate_questions_run oraclesNone charEncoding "doc").1.all
       isFallbackCall = true) :=
  ⟨rfl, claim_C7 oraclesNone charEncoding "doc" "q" none rfl⟩

/-- C8: in the multi-chunk case with no handle, the pipeline records each per-chunk
fallback result verbatim — including any "API Error: " transport-failure string — as
the partial result at that chunk's position, and still issues the reduction call over
all partial results; no error aborts the pass. -/
theorem claim_C8 (o : Oracles) (enc : Encoding) (d q : String) (fn : Option String)
    (hnone : o.model = none) (hbig : count_tokens enc d > MAX_TOKENS) :
    generate_answer_run o enc d q fn =
      ((chunk_text enc d MAX_TOKENS).map
          (fun c => GatewayCall.fallback (answer_chunk_prompt fn q c)) ++
        [GatewayCall.fallback (answer_summary_prompt
           (String.intercalate "\n\n" ((chunk_text enc d MAX_TOKENS).map
             (fun c => generate_answer_with_fallback o.http
               (answer_chunk_prompt fn q c)))) q)],
       generate_answer_with_fallback o.http (answer_summary_prompt
         (String.intercalate "\n\n" ((chunk_text enc d MAX_TOKENS).map
           (fun c => generate_answer_with_fallback o.http
             (answer_chunk_prompt fn q c)))) q)) ∧
    ∀ i, i < (chunk_text enc d MAX_TOKENS).length → ∀ e,
      o.http (answer_chunk_prompt fn q ((chunk_text enc d MAX_TOKENS).getD i "")) =
        HttpOutcome.raise e →
      ((chunk_text enc d MAX_TOKENS).map
        (fun c => generate_answer_with_fallback o.http
          (answer_chunk_prompt fn q c))).getD i "" = "API Error: " ++ e := by
  have hgw : ∀ p, callGateway o p =
      ([gatewayCallOf o p], Except.ok (generate_answer_with_fallback o.http p)) := by
    intro p
    simp [callGateway, gatewayCallOf, hnone]
  have hfb : ∀ p, gatewayCallOf o p = GatewayCall.fallback p := by
    intro p
    simp [gatewayCallOf, hnone]
  constructor
  · have hb := aggregateBody_multi o enc d (answer_chunk_prompt fn q) "\n\n"
      (fun combined_response => answer_summary_prompt combined_response q)
      (answer_full_prompt fn q d) (generate_answer_with_fallback o.http) hgw hbig
    simp [generate_answer_run, hb, hfb]
  · intro i hi e he
    rw [getD_map_of_lt _ _ i hi]
    simp only [generate_answer_with_fallback]
    rw [he]

/-- Witness for C8: two chunks with no handle and a failing transport; the partial
result at position 0 is the transport error string and the reduction call is still
issued. -/
theorem claim_C8_witness :
    count_tokens bigEncoding "d" > MAX_TOKENS ∧
    generate_answer_run oraclesNone bigEncoding "d" "q" none =
      ((chunk_text bigEncoding "d" MAX_TOKENS).map
          (fun c => GatewayCall.fallback (answer_chunk_prompt none "q" c)) ++
        [GatewayCall.fallback (answer_summary_prompt
           (String.intercalate "\n\n" ((chunk_text bigEncoding "d" MAX_TOKENS).map
             (fun c => generate_answer_with_fallback oraclesNone.http
               (answer_chunk_prompt none "q" c)))) "q")],
       generate_answer_with_fallback oraclesNone.http (answer_summary_prompt
         (String.intercalate "\n\n" ((chunk_text bigEncoding "d" MAX_TOKENS).map
           (fun c => generate_answer_with_fallback oraclesNone.http
             (answer_chunk_prompt none "q" c)))) "q")) ∧
    ((chunk_text bigEncoding "d" MAX_TOKENS).map
      (fun c => generate_answer_with_fallback oraclesNone.http
        (answer_chunk_prompt none "q" c))).getD 0 "" =
      "API Error: connection refused" := by
  have hbig : count_tokens bigEncoding "d" > MAX_TOKENS := by
    rw [bigEncoding_count]
    norm_num [MAX_TOKENS]
  have hi : 0 < (chunk_text bigEncoding "d" MAX_TOKENS).length := by
    rw [chunk_text_length bigEncoding "d" MAX_TOKENS (by norm_num [MAX_TOKENS]),
      bigEncoding_count]
    norm_num [MAX_TOKENS]
  have h := claim_C8 oraclesNone bigEncoding "d" "q" none rfl hbig
  exact ⟨hbig, h.1, h.2 0 hi "connection refused" rfl⟩

/-- C9: with a handle present, if generate_content raises on the per-chunk call at
position i (after the earlier calls succeeded), the exception escapes the map loop to
the outermost catch of generate_answer: the invocation returns the task-prefixed
error string, the issued calls are exactly the first i+1 per-chunk handle calls, no
reduction call is issued, and the collected partial results are discarded. -/
theorem claim_C9 (o : Oracles) (enc : Encoding) (d q : String) (fn : Option String)
    (m : String → Except String String) (i : Nat) (fj : Nat → String) (e : String)
    (hm : o.model = some m)
    (hbig : count_tokens enc d > MAX_TOKENS)
    (hi : i < (chunk_text enc d MAX_TOKENS).length)
    (hok : ∀ j, j < i →
      m (answer_chunk_prompt fn q ((chunk_text enc d MAX_TOKENS).getD j "")) =
        Except.ok (fj j))
    (herr : m (answer_chunk_prompt fn q ((chunk_text enc d MAX_TOKENS).getD i "")) =
        Except.error e) :
    generate_answer_run o enc d q fn =
      (((chunk_text enc d MAX_TOKENS).take (i + 1)).map
         (fun c => GatewayCall.handle (answer_chunk_prompt fn q c)),
       "Error generating answer: " ++ e) := by
  have hb := aggregateBody_fail o enc d (answer_chunk_prompt fn q) "\n\n"
    (fun combined_response => answer_summary_prompt combined_response q)
    (answer_full_prompt fn q d) m i fj e hm hbig hi hok herr
  simp [generate_answer_run, hb]

/-- Witness for C9: a handle raising "boom" on every prompt over a two-chunk
document; the run stops after the first per-chunk call. -/
theorem claim_C9_witness :
    0 < (chunk_text bigEncoding "d" MAX_TOKENS).length ∧
    generate_answer_run oraclesRaise bigEncoding "d" "q" none =
      (((chunk_text bigEncoding "d" MAX_TOKENS).take 1).map
         (fun c => GatewayCall.handle (answer_chunk_prompt none "q" c)),
       "Error generating answer: boom") := by
  have hbig : count_tokens bigEncoding "d" > MAX_TOKENS := by
    rw [bigEncoding_count]
    norm_num [MAX_TOKENS]
  have hi : 0 < (chunk_text bigEncoding "d" MAX_TOKENS).length := by
    rw [chunk_text_length bigEncoding "d" MAX_TOKENS (by norm_num [MAX_TOKENS]),
      bigEncoding_count]
    norm_num [MAX_TOKENS]
  exact ⟨hi, claim_C9 oraclesRaise bigEncoding "d" "q" none
    (fun p => Except.error "boom") 0 (fun j => "") "boom" rfl hbig hi
    (fun j hj => absurd hj (by omega)) rfl⟩

/-- C5: with a handle whose generate_content raises on every prompt (so the first
gateway call of any branch raises), each task's outermost catch converts the failure:
generate_answer, summarize_document and extract_key_points return a string beginning
with their documented error prefix, and generate_questions returns a one-element list
whose element begins with its prefix; no exception escapes a task boundary (the task
functions are total). -/
theorem claim_C5 (o : Oracles) (enc : Encoding) (d q : String) (fn : Option String)
    (m : String → Except String String) (g : String → String)
    (hm : o.model = some m) (hg : ∀ p, m p = Except.error (g p)) :
    (∃ s, generate_answer o enc d q fn = "Error generating answer: " ++ s) ∧
    (∃ s, summarize_document o enc d = "Error generating summary: " ++ s) ∧
    (∃ s, extract_key_points o enc d = "Error extracting key points: " ++ s) ∧
    (∃ s, generate_questions o enc d = ["Error generating questions: " ++ s]) := by
  refine ⟨?_, ?_, ?_, ?_⟩
  · obtain ⟨p, log, hb⟩ := aggregateBody_raise o enc d (answer_chunk_prompt fn q)
      "\n\n" (fun combined_response => answer_summary_prompt combined_response q)
      (answer_full_prompt fn q d) m g hm hg
    exact ⟨g p, by simp [generate_answer, generate_answer_run, hb]⟩
  · obtain ⟨p, log, hb⟩ := aggregateBody_raise o enc d summarize_chunk_prompt
      "\n\n" summarize_combine_prompt (summarize_full_prompt d) m g hm hg
    exact ⟨g p, by simp [summarize_document, summarize_document_run, hb]⟩
  · obtain ⟨p, log, hb⟩ := aggregateBody_raise o enc d keypoints_chunk_prompt
      "\n\n" keypoints_organize_prompt (keypoints_full_prompt d) m g hm hg
    exact ⟨g p, by simp [extract_key_points, extract_key_points_run, hb]⟩
  · obtain ⟨p, log, hb⟩ := aggregateBody_raise o enc d questions_chunk_prompt
      "\n" questions_dedup_prompt (questions_full_prompt d) m g hm hg
    exact ⟨g p, by simp [generate_questions, generate_questions_run, hb]⟩

/-- Witness for C5: the always-raising handle on the small document "doc". -/
theorem claim_C5_witness :
    oraclesRaise.model = some (fun p => Except.error "boom") ∧
    ((∃ s, generate_answer oraclesRaise charEncoding "doc" "q" none =
        "Error generating answer: " ++ s) ∧
     (∃ s, summarize_document oraclesRaise charEncoding "doc" =
        "Error generating summary: " ++ s) ∧
     (∃ s, extract_key_points oraclesRaise charEncoding "doc" =
        "Error extracting key points: " ++ s) ∧
     (∃ s, generate_questions oraclesRaise charEncoding "doc" =
        ["Error generating questions: " ++ s])) :=
  ⟨rfl, claim_C5 oraclesRaise charEncoding "doc" "q" none
    (fun p => Except.error "boom") (fun p => "boom") rfl (fun p => rfl)⟩

end QuestEngine
